import Mathlib

/-!
Verification of the skel CLI core: a shallow embedding of the adapter
generator (adapter-generator.ts) and the framework detector (detector.ts,
config.ts), with theorems checking the specification claims about them.
Paths are POSIX strings; JavaScript string replacement semantics are
modelled exactly, including dollar-sequence expansion in replacement
strings.
-/

namespace Skel

/-! ## Character-list string utilities -/

/-- Split a character list on a separator character. -/
def splitOnCharAux (sep : Char) : List Char → List Char → List (List Char)
  | acc, [] => [acc.reverse]
  | acc, c :: cs =>
    if c = sep then acc.reverse :: splitOnCharAux sep [] cs
    else splitOnCharAux sep (c :: acc) cs

/-- Split a character list on a separator character, keeping empty pieces. -/
def splitOnChar (sep : Char) (l : List Char) : List (List Char) :=
  splitOnCharAux sep [] l

/-- Prefix test on strings, as JavaScript String.prototype.startsWith. -/
def strStartsWith (s pre : String) : Bool :=
  pre.data.isPrefixOf s.data

/-- Suffix test on strings, as JavaScript String.prototype.endsWith. -/
def strEndsWith (s suf : String) : Bool :=
  suf.data.isSuffixOf s.data

/-- Substring test on character lists. -/
def strContainsAux (pat : List Char) : List Char → Bool
  | [] => pat.isPrefixOf []
  | c :: cs => pat.isPrefixOf (c :: cs) || strContainsAux pat cs

/-- Substring test on strings, as JavaScript String.prototype.includes. -/
def strContains (s pat : String) : Bool :=
  strContainsAux pat.data s.data

/-! ## POSIX path model (Node path module, posix flavour) -/

/-- One step of segment normalization for an absolute path: empty and dot
segments vanish, a dot-dot segment pops the stack (at the root it is
dropped). -/
def absStep (stack : List (List Char)) (seg : List Char) : List (List Char) :=
  if seg = [] ∨ seg = ['.'] then stack
  else if seg = ['.', '.'] then stack.dropLast
  else stack ++ [seg]

/-- Node path.resolve composed with path.normalize, for an absolute POSIX
path: resolves dot and dot-dot segments, collapses repeated separators, and
drops dot-dot segments that would climb above the root. -/
def resolveAbs (p : String) : String :=
  let segs := splitOnChar '/' p.data
  let stack := segs.foldl absStep []
  ⟨'/' :: List.intercalate ['/'] stack⟩

/-- One step of segment normalization for a possibly relative path: leading
dot-dot segments are kept when there is nothing to pop. -/
def relStep (isAbs : Bool) (stack : List (List Char)) (seg : List Char) : List (List Char) :=
  if seg = [] ∨ seg = ['.'] then stack
  else if seg = ['.', '.'] then
    match stack.getLast? with
    | some last => if last = ['.', '.'] then stack ++ [seg] else stack.dropLast
    | none => if isAbs then [] else [seg]
  else stack ++ [seg]

/-- Node POSIX path.join: concatenate the non-empty parts with a slash and
normalize the result; an empty join yields a dot. -/
def pathJoin (parts : List String) : String :=
  let cleaned := (parts.map String.data).filter (fun p => p ≠ [])
  if cleaned = [] then "." else
    let joined := List.intercalate ['/'] cleaned
    let isAbs := joined.head? = some '/'
    let stack := (splitOnChar '/' joined).foldl (relStep isAbs) []
    let body := List.intercalate ['/'] stack
    ⟨if isAbs then '/' :: body else if body = [] then ['.'] else body⟩

/-- Node POSIX path.dirname, for paths without a trailing slash. -/
def dirname (s : String) : String :=
  let cs := s.data
  match cs.reverse.findIdx? (· = '/') with
  | none => "."
  | some i =>
    let keep := cs.take (cs.length - 1 - i)
    if keep = [] then "/" else ⟨keep⟩

/-! ## JavaScript string replacement -/

/-- Expansion of a JavaScript replacement string against one match: a
doubled dollar yields one dollar, dollar-ampersand the matched text, dollar
followed by a backquote the part of the subject before the match, dollar
followed by a straight quote the part after it; with no capture groups in
the pattern every other dollar sequence is literal. -/
def expandRepl (matched before after : List Char) : List Char → List Char
  | [] => []
  | ['$'] => ['$']
  | '$' :: c :: rest =>
    if c = '$' then '$' :: expandRepl matched before after rest
    else if c = '&' then matched ++ expandRepl matched before after rest
    else if c = Char.ofNat 96 then before ++ expandRepl matched before after rest
    else if c = Char.ofNat 39 then after ++ expandRepl matched before after rest
    else '$' :: c :: expandRepl matched before after rest
  | c :: rest => c :: expandRepl matched before after rest

/-- Global replacement scan: JavaScript subject.replace with a global regex
that only matches the literal non-empty character sequence pat, replacing
each non-overlapping occurrence left to right by the expansion of tmpl. The
accumulator pre holds the subject characters already scanned. Every step
consumes at least one subject character, so fuel bounded below by the
remaining subject length makes the fuel case unreachable. -/
def jsReplaceGo (pat tmpl : List Char) : Nat → List Char → List Char → List Char
  | _, _, [] => []
  | 0, _, rest => rest
  | fuel + 1, pre, c :: cs =>
    if !pat.isEmpty && pat.isPrefixOf (c :: cs) then
      expandRepl pat pre ((c :: cs).drop pat.length) tmpl
        ++ jsReplaceGo pat tmpl fuel (pre ++ pat) ((c :: cs).drop pat.length)
    else
      c :: jsReplaceGo pat tmpl fuel (pre ++ [c]) cs

/-- JavaScript s.replace(new RegExp(pat, g-flag), tmpl) for a non-empty
pattern that matches itself literally. -/
def jsReplaceAll (s pat tmpl : String) : String :=
  ⟨jsReplaceGo pat.data tmpl.data s.data.length [] s.data⟩

/-- Model of AdapterGenerator.renderTemplate: for each variable binding in
order, globally replace the key wrapped in double braces using JavaScript
String.replace with a string replacement (dollar sequences in the value are
therefore interpreted by the engine). -/
def renderTemplate (content : String) (vars : List (String × String)) : String :=
  vars.foldl
    (fun rendered kv =>
      jsReplaceAll rendered ("\x7b\x7b" ++ kv.1 ++ "\x7d\x7d") kv.2)
    content

/-! ## Adapter generator model (adapter-generator.ts) -/

/-- Lowercase ASCII letter test, matching the character class of the zod
regex for primitive ids. -/
def isLowerAlpha (c : Char) : Bool := 'a' ≤ c && c ≤ 'z'

/-- Zod regex for primitive ids: one or more lowercase letters, a dot, one
or more lowercase letters. -/
def validPrimitiveId (s : String) : Bool :=
  match splitOnChar '.' s.data with
  | [a, b] => !a.isEmpty && !b.isEmpty && a.all isLowerAlpha && b.all isLowerAlpha
  | _ => false

/-- The language enum of the zod input schema. -/
def languageNames : List String := ["ts", "csharp", "java", "python", "php", "unknown"]

/-- Membership in the language enum. -/
def validLanguage (s : String) : Bool := languageNames.contains s

/-- Model of InputSchema.parse succeeding: primitive id matches the regex,
language is in the enum, target directory is a non-empty string. The
framework field is an unconstrained string. -/
def schemaOk (primitiveId language targetDir : String) : Bool :=
  validPrimitiveId primitiveId && validLanguage language && !targetDir.data.isEmpty

/-- Typed errors raised by AdapterGenerator.generate: a zod validation
failure, PathTraversalError carrying the attempted path, or
TemplateNotFoundError carrying the attempted path. -/
inductive GenError
  | validation
  | pathTraversal (p : String)
  | templateNotFound (p : String)
deriving DecidableEq, Repr

/-- Error code carried by the SkelError subclasses (zod errors carry
none). -/
def GenError.errCode : GenError → Option String
  | .validation => none
  | .pathTraversal _ => some "PATH_TRAVERSAL"
  | .templateNotFound _ => some "TEMPLATE_NOT_FOUND"

/-- Filesystem side effects performed by generate, in program order. -/
inductive GenEff
  | ensureDir (d : String)
  | write (p : String) (content : String)
deriving DecidableEq, Repr

/-- Test whether an effect is a file write. -/
def GenEff.isWrite : GenEff → Bool
  | .write _ _ => true
  | _ => false

/-- Abstract read-only filesystem consulted by generate: existence of a
path, directory entries, and file contents. -/
structure TemplateFS where
  pathExists : String → Bool
  readdir : String → List String
  readFile : String → String

/-- Model of AdapterGenerator.validatePath as a predicate: the resolved,
normalized candidate must start, as a raw character-string prefix, with the
resolved templates root (String.prototype.startsWith, no separator
added). -/
def validatePathOk (root p : String) : Bool :=
  strStartsWith (resolveAbs p) root

/-- The per-file loop of AdapterGenerator.generate: for each directory
entry, join it to the bundle path, validate the joined source path, read
the file, render it, then ensure the destination directory and write the
rendered content. Returns the effects performed in order and the error that
stopped the loop, if any. -/
def generateLoop (fsys : TemplateFS) (root tp targetDir projectName primitiveId : String) :
    List String → List GenEff × Option GenError
  | [] => ([], none)
  | f :: rest =>
    let srcPath := pathJoin [tp, f]
    if !validatePathOk root srcPath then ([], some (.pathTraversal srcPath))
    else
      let content := fsys.readFile srcPath
      let rendered := renderTemplate content
        [("PROJECT_NAME", projectName), ("PRIMITIVE_ID", primitiveId)]
      let destPath := pathJoin [targetDir, f]
      let next := generateLoop fsys root tp targetDir projectName primitiveId rest
      (.ensureDir (dirname destPath) :: .write destPath rendered :: next.1, next.2)

/-- Model of AdapterGenerator.generate: zod input validation, template
bundle path resolution and validation, bundle existence check, then the
per-file loop. The project name defaults to app when absent or empty
(JavaScript truthiness of the or-default). The first component collects
every filesystem effect in program order; the second is the raised error,
if any. -/
def generate (fsys : TemplateFS) (root primitiveId language framework targetDir : String)
    (projectName : Option String) : List GenEff × Option GenError :=
  if !schemaOk primitiveId language targetDir then ([], some .validation)
  else
    let tp := pathJoin [root, language, framework, primitiveId]
    if !validatePathOk root tp then ([], some (.pathTraversal tp))
    else if !fsys.pathExists tp then ([], some (.templateNotFound tp))
    else
      let pn := match projectName with
        | none => "app"
        | some p => if p.data.isEmpty then "app" else p
      generateLoop fsys root tp targetDir pn primitiveId (fsys.readdir tp)

/-! ## Framework detector model (config.ts and detector.ts) -/

/-- The language union of DetectedStack. -/
inductive Lang
  | ts | csharp | java | python | php | unknown
deriving DecidableEq, Repr

/-- The data-layer union. -/
inductive DataKind
  | mongo | postgres | graphql
deriving DecidableEq, Repr

/-- DetectedStack value object; framework names are the configured strings.
Confidence is measured in hundredths (70 denotes 0.70): every confidence the
code manipulates is an exact multiple of one hundredth, and the code only
ever compares confidences, so this encoding is order- and
equality-faithful. -/
structure DetectedStack where
  language : Lang
  framework : String
  data : Option DataKind := none
  confidence : Option Nat := none
deriving DecidableEq, Repr

/-- DetectionResult pairs a stack with the scalar confidence used for
cross-probe comparison. -/
structure DetectionResult where
  stack : DetectedStack
  confidence : Nat
deriving DecidableEq, Repr

/-- FrameworkConfig rows of config.ts; an absent confidenceBoost is the
empty list. -/
structure FrameworkConfig where
  key : String
  name : String
  priority : Nat
  confidenceBoost : List String := []
deriving DecidableEq, Repr

def NODE_FRAMEWORKS : List FrameworkConfig :=
  [⟨"@nestjs/core", "nestjs", 10, ["@nestjs/cli", "nest-cli.json"]⟩,
   ⟨"next", "nextjs", 9, ["react"]⟩,
   ⟨"@angular/core", "angular", 8, ["@angular/cli"]⟩,
   ⟨"express", "express", 5, []⟩]

def PYTHON_FRAMEWORKS : List FrameworkConfig :=
  [⟨"django", "django", 10, []⟩,
   ⟨"fastapi", "fastapi", 9, []⟩,
   ⟨"flask", "flask", 7, []⟩]

def CSHARP_FRAMEWORKS : List FrameworkConfig :=
  [⟨"Microsoft.AspNetCore", "aspnet", 10, ["Microsoft.AspNetCore.Mvc"]⟩]

def JAVA_FRAMEWORKS : List FrameworkConfig :=
  [⟨"spring-boot-starter", "spring", 10, ["spring-boot-starter-web"]⟩]

def PHP_FRAMEWORKS : List FrameworkConfig :=
  [⟨"laravel/framework", "laravel", 10, ["laravel/laravel"]⟩]

/-- DataLayerConfig rows of config.ts. -/
structure DataLayerConfig where
  key : String
  type : DataKind
  priority : Nat
deriving DecidableEq, Repr

def DATA_LAYERS : List DataLayerConfig :=
  [⟨"mongoose", .mongo, 10⟩,
   ⟨"mongodb", .mongo, 9⟩,
   ⟨"pg", .postgres, 10⟩,
   ⟨"postgres", .postgres, 9⟩,
   ⟨"typeorm", .postgres, 8⟩,
   ⟨"graphql", .graphql, 10⟩,
   ⟨"apollo-server", .graphql, 9⟩]

/-- Data layer lookup by package name. -/
def getDataLayerType (packageName : String) : Option DataKind :=
  (DATA_LAYERS.find? (fun dl => dl.key = packageName)).map (·.type)

/-! ### JavaScript string-keyed records (parsed dependency maps) -/

/-- A string-keyed record with insertion order, as a parsed JSON
dependency map. -/
abbrev DepRecord := List (String × String)

/-- Key lookup in a record. -/
def recLookup (r : DepRecord) (k : String) : Option String :=
  (r.find? (fun kv => kv.1 = k)).map (·.2)

/-- JavaScript truthiness of an indexed access deps[key]: the key is
present and its value is a non-empty string. -/
def truthyLookup (r : DepRecord) (k : String) : Bool :=
  match recLookup r k with
  | some v => !v.data.isEmpty
  | none => false

/-- JavaScript object spread of two records: keys of the first in order
with values overridden by the second, then keys only in the second, in
order. -/
def mergeRecord (a b : DepRecord) : DepRecord :=
  a.map (fun kv => (kv.1, (recLookup b kv.1).getD kv.2))
    ++ b.filter (fun kv => (recLookup a kv.1).isNone)

/-- Shape accepted by the package.json and composer.json zod schemas: two
dependency maps (absent maps are modelled as empty). -/
structure PkgJson where
  dependencies : DepRecord
  devDependencies : DepRecord
deriving DecidableEq, Repr

/-- Abstract working directory as consulted by the probes: relative-path
existence checks, the hardened safeReadFile (returning none for every
rejection), fs.readdir of the directory itself (none models a thrown
error), and the JSON-plus-schema parse oracles for the two structured
manifests. -/
structure Cwd where
  pathExists : String → Bool
  safeReadFile : String → Option String
  readdirRes : Option (List String)
  parsePkgJson : String → Option PkgJson
  parseComposer : String → Option PkgJson

/-- Outcome of one probe invocation: a thrown error (rejected promise), a
null result, or a detection result. -/
inductive ProbeRes
  | thrown
  | null
  | found (r : DetectionResult)
deriving DecidableEq, Repr

/-- Model of NodeDetector.detect. -/
def nodeDetect (cwd : Cwd) : ProbeRes :=
  if !cwd.pathExists "package.json" then .null
  else
    match cwd.safeReadFile "package.json" with
    | none => .null
    | some content =>
      if content.data.isEmpty then .null
      else
        match cwd.parsePkgJson content with
        | none => .null
        | some pkg =>
          let deps := mergeRecord pkg.dependencies pkg.devDependencies
          match NODE_FRAMEWORKS.find? (fun f => truthyLookup deps f.key) with
          | none => .null
          | some framework =>
            let confidence : Nat :=
              if framework.confidenceBoost.any
                  (fun bk => truthyLookup deps bk || cwd.pathExists bk)
              then 95 else 70
            let dataLayer := (deps.map Prod.fst).findSome? getDataLayerType
            .found ⟨⟨.ts, framework.name, dataLayer, some confidence⟩, confidence⟩

/-- Marker files scanned by PythonDetector, in order. -/
def pythonFiles : List String := ["requirements.txt", "Pipfile", "pyproject.toml"]

/-- The file loop of PythonDetector.detect. -/
def pythonScan (cwd : Cwd) : List String → ProbeRes
  | [] => .null
  | f :: rest =>
    if !cwd.pathExists f then pythonScan cwd rest
    else
      match cwd.safeReadFile f with
      | none => pythonScan cwd rest
      | some content =>
        if content.data.isEmpty then pythonScan cwd rest
        else
          match PYTHON_FRAMEWORKS.find? (fun fw => strContains content fw.key) with
          | some framework =>
            let confidence : Nat := if f = "pyproject.toml" then 90 else 80
            .found ⟨⟨.python, framework.name, none, some confidence⟩, confidence⟩
          | none => pythonScan cwd rest

/-- Model of PythonDetector.detect. -/
def pythonDetect (cwd : Cwd) : ProbeRes := pythonScan cwd pythonFiles

/-- Model of CSharpDetector.detect; the unguarded fs.readdir may throw. -/
def csharpDetect (cwd : Cwd) : ProbeRes :=
  match cwd.readdirRes with
  | none => .thrown
  | some files =>
    match files.find? (fun f => strEndsWith f ".csproj" || strEndsWith f ".sln") with
    | none => .null
    | some csproj =>
      match cwd.safeReadFile csproj with
      | none => .null
      | some content =>
        if content.data.isEmpty then .null
        else
          match CSHARP_FRAMEWORKS.find? (fun fw => strContains content fw.key) with
          | none => .null
          | some framework =>
            let base : Nat := if strEndsWith csproj ".csproj" then 90 else 80
            let confidence :=
              if framework.confidenceBoost.any (fun bk => strContains content bk)
              then 95 else base
            .found ⟨⟨.csharp, framework.name, none, some confidence⟩, confidence⟩

/-- Marker files scanned by JavaDetector with their base confidences, in
order. -/
def javaFiles : List (String × Nat) := [("pom.xml", 90), ("build.gradle", 85)]

/-- The file loop of JavaDetector.detect. -/
def javaScan (cwd : Cwd) : List (String × Nat) → ProbeRes
  | [] => .null
  | (f, baseConf) :: rest =>
    if cwd.pathExists f then
      match cwd.safeReadFile f with
      | none => javaScan cwd rest
      | some content =>
        if content.data.isEmpty then javaScan cwd rest
        else
          match JAVA_FRAMEWORKS.find? (fun fw => strContains content fw.key) with
          | none => javaScan cwd rest
          | some framework =>
            let confidence : Nat :=
              if framework.confidenceBoost.any (fun bk => strContains content bk)
              then 95 else baseConf
            .found ⟨⟨.java, framework.name, none, some confidence⟩, confidence⟩
    else javaScan cwd rest

/-- Model of JavaDetector.detect. -/
def javaDetect (cwd : Cwd) : ProbeRes := javaScan cwd javaFiles

/-- Model of PHPDetector.detect. -/
def phpDetect (cwd : Cwd) : ProbeRes :=
  if !cwd.pathExists "composer.json" then .null
  else
    match cwd.safeReadFile "composer.json" with
    | none => .null
    | some content =>
      if content.data.isEmpty then .null
      else
        match cwd.parseComposer content with
        | none => .null
        | some composer =>
          let deps := mergeRecord composer.dependencies composer.devDependencies
          match PHP_FRAMEWORKS.find? (fun f => truthyLookup deps f.key) with
          | none => .null
          | some framework =>
            let confidence : Nat :=
              if framework.confidenceBoost.any (fun bk => truthyLookup deps bk)
              then 95 else 85
            .found ⟨⟨.php, framework.name, none, some confidence⟩, confidence⟩

/-! ### Orchestrator (FrameworkDetector) -/

/-- A probe as held in the detectors list: optional priority and the
invocation function. -/
structure Probe where
  priority : Option Int
  run : Cwd → ProbeRes

/-- The five built-in probes, in construction order, all with priority
ten. -/
def builtinProbes : List Probe :=
  [⟨some 10, nodeDetect⟩, ⟨some 10, pythonDetect⟩, ⟨some 10, csharpDetect⟩,
   ⟨some 10, javaDetect⟩, ⟨some 10, phpDetect⟩]

/-- Insert before the first element related by le; used to build the unique
stable sorted order guaranteed by Array.prototype.sort. -/
def insertBy (le : α → α → Bool) (x : α) : List α → List α
  | [] => [x]
  | y :: ys => if le x y then x :: y :: ys else y :: insertBy le x ys

/-- Stable sort by a total preorder test, modelling the stable
Array.prototype.sort of modern JavaScript engines. -/
def stableSortBy (le : α → α → Bool) : List α → List α
  | [] => []
  | x :: xs => insertBy le x (stableSortBy le xs)

/-- Keep a before b when the comparator (b.priority minus a.priority, with
absent priority read as zero) is non-positive: descending by priority. -/
def prioGe (a b : Probe) : Bool := b.priority.getD 0 ≤ a.priority.getD 0

/-- Keep a before b when b's confidence does not exceed a's: descending by
confidence. -/
def confGe (a b : DetectionResult) : Bool := b.confidence ≤ a.confidence

/-- FrameworkDetector instance state: the probe list and the single-slot
cache. -/
structure DetectorState where
  detectors : List Probe
  cache : Option DetectedStack

/-- Model of the constructor: built-in probes followed by caller
strategies, stable-sorted descending by priority; empty cache. -/
def mkDetector (strategies : List Probe) : DetectorState :=
  ⟨stableSortBy prioGe (builtinProbes ++ strategies), none⟩

/-- Model of registerDetector: push at the end of the probe list; no
re-sort and no cache change. -/
def registerDetector (d : DetectorState) (p : Probe) : DetectorState :=
  { d with detectors := d.detectors ++ [p] }

/-- Model of clearCache. -/
def clearCache (d : DetectorState) : DetectorState := { d with cache := none }

/-- The unknown fallback stack. -/
def unknownStack : DetectedStack := ⟨.unknown, "unknown", none, some 0⟩

/-- The sequential probe loop of detect, also counting invoked probes: the
first non-null result wins; a thrown probe is caught, logged and
skipped. -/
def detectLoop (cwd : Cwd) : List Probe → DetectedStack × Nat
  | [] => (unknownStack, 0)
  | p :: rest =>
    match p.run cwd with
    | .found r => (r.stack, 1)
    | _ =>
      let next := detectLoop cwd rest
      (next.1, next.2 + 1)

/-- Instrumented model of detect: the returned stack, the post state, and
the number of probes invoked (zero on a cache hit). -/
def detectI (d : DetectorState) (cwd : Cwd) : DetectedStack × DetectorState × Nat :=
  match d.cache with
  | some s => (s, d, 0)
  | none =>
    let r := detectLoop cwd d.detectors
    (r.1, { d with cache := some r.1 }, r.2)

/-- Instrumented model of detectParallel: the returned stack, the post
state, and the number of rejection log lines emitted. All probes are
invoked; fulfilled non-null results are stable-sorted descending by
confidence and the first wins; the rejection-logging loop is reached only
on the fallback path, after the early return. -/
def detectParallelI (d : DetectorState) (cwd : Cwd) :
    DetectedStack × DetectorState × Nat :=
  match d.cache with
  | some s => (s, d, 0)
  | none =>
    let results := d.detectors.map (fun p => p.run cwd)
    let successful := results.filterMap (fun r =>
      match r with
      | .found v => some v
      | _ => none)
    match stableSortBy confGe successful with
    | best :: _ => (best.stack, { d with cache := some best.stack }, 0)
    | [] =>
      let logs := (results.filter (fun r => r = ProbeRes.thrown)).length
      (unknownStack, { d with cache := some unknownStack }, logs)

/-! ## Fixtures shared by the claim theorems -/

/-- A filesystem with no bundle at all. -/
def fsTriv : TemplateFS := ⟨fun _ => false, fun _ => [], fun _ => ""⟩

/-- A bundle whose second directory entry climbs out of the templates
root. -/
def fsEscape : TemplateFS :=
  ⟨fun p => p = "/r/templates/ts/nestjs/a.b",
   fun _ => ["good.ts", "../../../../../etc"],
   fun _ => "hello"⟩

/-- An existing bundle directory with no files in it. -/
def fsEmptyBundle : TemplateFS :=
  ⟨fun p => p = "/r/templates/ts/nestjs/a.b", fun _ => [], fun _ => ""⟩

/-- A bundle with one template file whose content is the project-name
placeholder. -/
def fsOneFile : TemplateFS :=
  ⟨fun p => p = "/r/templates/ts/nestjs/a.b",
   fun _ => ["t.ts"],
   fun _ => "\x7b\x7bPROJECT_NAME\x7d\x7d"⟩

/-! ## Generator lemmas -/

/-- A path-traversal error produced inside the per-file loop always carries
a path that fails the validation predicate. -/
theorem generateLoop_traversal (fsys : TemplateFS)
    (root tp targetDir pn pid q : String) (entries : List String)
    (h : (generateLoop fsys root tp targetDir pn pid entries).2
        = some (.pathTraversal q)) :
    validatePathOk root q = false := by
  induction entries with
  | nil => simp [generateLoop] at h
  | cons f rest ih =>
    rw [generateLoop] at h
    split at h
    · rename_i hv
      simp only [Option.some.injEq, GenError.pathTraversal.injEq] at h
      subst h
      simpa using hv
    · dsimp only at h
      exact ih h

/-! ## Claim theorems for the adapter generator -/

/-- Claim C1. The claim demands literal text substitution of the project
name for every name, including replacement patterns such as a dollar
followed by an ampersand. The code pipes the name through JavaScript
String.replace, which interprets dollar sequences in the replacement
value: at project name dollar-ampersand the matched placeholder text is
re-inserted instead of the name, both at the renderTemplate level and
through a full generate run, so the replacement value does not appear
verbatim. -/
theorem c1_dollar_sequences_not_literal :
    renderTemplate "\x7b\x7bPROJECT_NAME\x7d\x7d"
        [("PROJECT_NAME", "$&"), ("PRIMITIVE_ID", "a.b")]
      = "\x7b\x7bPROJECT_NAME\x7d\x7d"
    ∧ renderTemplate "\x7b\x7bPROJECT_NAME\x7d\x7d"
        [("PROJECT_NAME", "$&"), ("PRIMITIVE_ID", "a.b")]
      ≠ "$&"
    ∧ generate fsOneFile "/r/templates" "a.b" "ts" "nestjs" "/out" (some "$&")
      = ([.ensureDir "/out", .write "/out/t.ts" "\x7b\x7bPROJECT_NAME\x7d\x7d"], none) := by
  refine ⟨by decide, by decide, by decide⟩

/-- Claim C2. For every input that passes the zod schema and whose resolved
template bundle path fails the prefix check against the templates root,
generate raises PathTraversalError carrying the joined path, whose code is
PATH_TRAVERSAL, and performs no filesystem effect at all (in particular no
write). -/
theorem c2_traversal_error_before_writes (fsys : TemplateFS)
    (root primitiveId language framework targetDir : String)
    (projectName : Option String)
    (hschema : schemaOk primitiveId language targetDir = true)
    (hdev : validatePathOk root (pathJoin [root, language, framework, primitiveId]) = false) :
    generate fsys root primitiveId language framework targetDir projectName
      = ([], some (.pathTraversal (pathJoin [root, language, framework, primitiveId])))
    ∧ (generate fsys root primitiveId language framework targetDir projectName).2.map
        GenError.errCode = some (some "PATH_TRAVERSAL") := by
  unfold generate
  dsimp only
  rw [hschema, hdev]
  exact ⟨rfl, rfl⟩

/-- Witness for claim C2 at a concrete traversal input. -/
theorem c2_traversal_error_before_writes_witness :
    generate fsTriv "/r/templates" "security.tokenizer" "ts" "../../../etc" "/out" none
      = ([], some (.pathTraversal
            (pathJoin ["/r/templates", "ts", "../../../etc", "security.tokenizer"])))
    ∧ (generate fsTriv "/r/templates" "security.tokenizer" "ts" "../../../etc" "/out" none).2.map
        GenError.errCode = some (some "PATH_TRAVERSAL") :=
  c2_traversal_error_before_writes fsTriv "/r/templates" "security.tokenizer" "ts"
    "../../../etc" "/out" none (by decide) (by decide)

/-- Claim C3 counterexample. With a bundle whose first entry is fine and
whose second entry escapes the templates root, generate writes the first
file and only then fails validating the second source path: a write has
occurred although validation of a source path failed, refuting the
all-or-nothing gate over source paths. -/
theorem c3_write_before_late_validation :
    (generate fsEscape "/r/templates" "a.b" "ts" "nestjs" "/out" none).1.any
        GenEff.isWrite = true
    ∧ (generate fsEscape "/r/templates" "a.b" "ts" "nestjs" "/out" none).2
      = some (.pathTraversal "/etc") := by
  refine ⟨by decide, by decide⟩

/-- Claim C3 as amended: generate performs zero filesystem effects until
the inputs and the bundle directory path have passed validation (failure
of the schema, of the bundle-path check, or of the existence check leaves
an empty effect trace), while each source file path is validated only
immediately before that file is processed: a valid entry is read, rendered
and written before the loop even looks at the next entry, so earlier
writes persist when a later source path fails validation. -/
theorem c3_validation_gate_scope (fsys : TemplateFS)
    (root primitiveId language framework targetDir tp pn f : String)
    (projectName : Option String) (rest : List String)
    (hpre : schemaOk primitiveId language targetDir = false
        ∨ validatePathOk root (pathJoin [root, language, framework, primitiveId]) = false
        ∨ fsys.pathExists (pathJoin [root, language, framework, primitiveId]) = false)
    (hsrc : validatePathOk root (pathJoin [tp, f]) = true) :
    (generate fsys root primitiveId language framework targetDir projectName).1 = []
    ∧ generateLoop fsys root tp targetDir pn primitiveId (f :: rest)
      = (.ensureDir (dirname (pathJoin [targetDir, f]))
          :: .write (pathJoin [targetDir, f])
              (renderTemplate (fsys.readFile (pathJoin [tp, f]))
                [("PROJECT_NAME", pn), ("PRIMITIVE_ID", primitiveId)])
          :: (generateLoop fsys root tp targetDir pn primitiveId rest).1,
         (generateLoop fsys root tp targetDir pn primitiveId rest).2) := by
  constructor
  · unfold generate
    dsimp only
    rcases hpre with h | h | h
    · rw [h]
      rfl
    · rw [h]
      split
      · rfl
      · rfl
    · rw [h]
      split
      · rfl
      · split
        · rfl
        · rfl
  · rw [generateLoop, hsrc]
    rfl

/-- Witness for the amended claim C3 at concrete inputs: a missing bundle
leaves an empty trace, and a loop step on a valid entry emits its effects
before the rest of the loop runs. -/
theorem c3_validation_gate_scope_witness :
    (generate fsTriv "/r/templates" "a.b" "ts" "nestjs" "/out" none).1 = []
    ∧ generateLoop fsTriv "/r/templates" "/r/templates/ts/nestjs/a.b" "/out" "app" "a.b"
        ["good.ts"]
      = (.ensureDir (dirname (pathJoin ["/out", "good.ts"]))
          :: .write (pathJoin ["/out", "good.ts"])
              (renderTemplate (fsTriv.readFile (pathJoin ["/r/templates/ts/nestjs/a.b", "good.ts"]))
                [("PROJECT_NAME", "app"), ("PRIMITIVE_ID", "a.b")])
          :: (generateLoop fsTriv "/r/templates" "/r/templates/ts/nestjs/a.b" "/out" "app" "a.b" []).1,
         (generateLoop fsTriv "/r/templates" "/r/templates/ts/nestjs/a.b" "/out" "app" "a.b" []).2) :=
  c3_validation_gate_scope fsTriv "/r/templates" "a.b" "ts" "nestjs" "/out"
    "/r/templates/ts/nestjs/a.b" "app" "good.ts" none []
    (Or.inr (Or.inr (by decide))) (by decide)

/-- True when the effect creates the named directory: an ensureDir of the
directory itself or of a descendant (ensureDir creates missing ancestor
directories); a file write creates no directory. -/
def dirCreated : GenEff → String → Bool
  | .ensureDir d, t => d = t || strStartsWith d (t ++ "/")
  | .write _ _, _ => false

/-- Claim C9 counterexample. Against an existing but empty bundle, generate
succeeds with an empty effect trace: in particular no effect creates the
target directory, so a target directory that did not exist beforehand
still does not exist afterwards, refuting the claim that it always exists
after the call. -/
theorem c9_empty_bundle_no_target_dir :
    generate fsEmptyBundle "/r/templates" "a.b" "ts" "nestjs" "/out" none = ([], none)
    ∧ (generate fsEmptyBundle "/r/templates" "a.b" "ts" "nestjs" "/out" none).1.any
        (fun e => dirCreated e "/out") = false := by
  refine ⟨by decide, by decide⟩

/-- Claim C9 as amended: for every valid input whose resolved bundle
directory exists but contains no files, generate succeeds with zero output
files and zero filesystem effects; in particular the target directory is
not created, so afterwards it exists only if it already existed before the
call. -/
theorem c9_empty_bundle_succeeds (fsys : TemplateFS)
    (root primitiveId language framework targetDir : String)
    (projectName : Option String)
    (hschema : schemaOk primitiveId language targetDir = true)
    (hpath : validatePathOk root (pathJoin [root, language, framework, primitiveId]) = true)
    (hex : fsys.pathExists (pathJoin [root, language, framework, primitiveId]) = true)
    (hempty : fsys.readdir (pathJoin [root, language, framework, primitiveId]) = []) :
    generate fsys root primitiveId language framework targetDir projectName = ([], none) := by
  unfold generate
  dsimp only
  rw [hschema, hpath, hex, hempty]
  rfl

/-- Witness for the amended claim C9 at a concrete empty bundle. -/
theorem c9_empty_bundle_succeeds_witness :
    generate fsEmptyBundle "/r/templates" "a.b" "ts" "nestjs" "/out" none = ([], none) :=
  c9_empty_bundle_succeeds fsEmptyBundle "/r/templates" "a.b" "ts" "nestjs" "/out" none
    (by decide) (by decide) (by decide) (by decide)

/-- Claim C10. The traversal check of generate is a raw string-prefix test
without a trailing separator: for schema-valid inputs generate raises
PathTraversalError for the bundle path exactly when its resolution does
not begin, as a character string, with the templates root; consequently a
framework value whose dot-dot segments land in a sibling directory whose
name merely extends the root name passes the check, and generate proceeds
to the existence check (TemplateNotFoundError here) instead of raising
PathTraversalError. -/
theorem c10_raw_prefix_check (fsys : TemplateFS)
    (root primitiveId language framework targetDir : String)
    (projectName : Option String)
    (hschema : schemaOk primitiveId language targetDir = true) :
    ((generate fsys root primitiveId language framework targetDir projectName).2
        = some (.pathTraversal (pathJoin [root, language, framework, primitiveId]))
      ↔ strStartsWith (resolveAbs (pathJoin [root, language, framework, primitiveId]))
          root = false)
    ∧ validatePathOk "/r/templates"
        (pathJoin ["/r/templates", "ts", "../../templatesX", "a.b"]) = true
    ∧ resolveAbs (pathJoin ["/r/templates", "ts", "../../templatesX", "a.b"])
        = "/r/templatesX/a.b"
    ∧ strStartsWith "/r/templatesX/a.b" "/r/templates/" = false
    ∧ ("/r/templatesX/a.b" = "/r/templates") = False
    ∧ generate fsTriv "/r/templates" "a.b" "ts" "../../templatesX" "/out" none
      = ([], some (.templateNotFound "/r/templatesX/a.b")) := by
  refine ⟨?_, by decide, by decide, by decide, by decide, by decide⟩
  constructor
  · intro h
    by_contra hc
    have hv : validatePathOk root (pathJoin [root, language, framework, primitiveId]) = true := by
      unfold validatePathOk
      cases hb : strStartsWith (resolveAbs (pathJoin [root, language, framework, primitiveId])) root
      · exact absurd hb hc
      · rfl
    simp only [generate, hschema, hv, Bool.not_true, Bool.false_eq_true, if_false] at h
    split at h
    · simp at h
    · exact absurd ((generateLoop_traversal fsys root _ targetDir _ primitiveId _ _ h).symm.trans hv)
        Bool.false_ne_true
  · intro h
    have hv : validatePathOk root (pathJoin [root, language, framework, primitiveId]) = false := by
      unfold validatePathOk
      exact h
    unfold generate
    dsimp only
    rw [hschema, hv]
    rfl

/-- A directory whose package manifest declares the express dependency
only. -/
def cwdExpress : Cwd :=
  { pathExists := fun s => s = "package.json",
    safeReadFile := fun s => if s = "package.json" then some "pkg" else none,
    readdirRes := some [],
    parsePkgJson := fun c => if c = "pkg" then some ⟨[("express", "4.0.0")], []⟩ else none,
    parseComposer := fun _ => none }

/-- A directory whose package manifest declares the nest core dependency
with the nest CLI boost indicator among the development dependencies. -/
def cwdNest : Cwd :=
  { pathExists := fun s => s = "package.json",
    safeReadFile := fun s => if s = "package.json" then some "pkg" else none,
    readdirRes := some [],
    parsePkgJson := fun c =>
      if c = "pkg" then some ⟨[("@nestjs/core", "10.0.0")], [("@nestjs/cli", "9.0.0")]⟩
      else none,
    parseComposer := fun _ => none }

/-! ## Detector lemmas -/

/-- True when the probe outcome is a non-null fulfilled result. -/
def ProbeRes.isFound : ProbeRes → Bool
  | .found _ => true
  | _ => false

/-- Confidence schedule of the Node probe: a found result carries 70 or 95
hundredths, recorded both as the scalar and in the stack. -/
theorem nodeDetect_conf (cwd : Cwd) (r : DetectionResult)
    (h : nodeDetect cwd = .found r) :
    (r.confidence = 70 ∨ r.confidence = 95) ∧ r.stack.confidence = some r.confidence := by
  unfold nodeDetect at h
  dsimp only at h
  repeat' split at h
  all_goals cases h <;> simp

/-- Confidence schedule of the Python scan: 80 or 90 hundredths. -/
theorem pythonScan_conf (cwd : Cwd) (files : List String) (r : DetectionResult)
    (h : pythonScan cwd files = .found r) :
    (r.confidence = 80 ∨ r.confidence = 90) ∧ r.stack.confidence = some r.confidence := by
  induction files with
  | nil => simp [pythonScan] at h
  | cons f rest ih =>
    rw [pythonScan] at h
    dsimp only at h
    repeat' split at h
    all_goals first
      | exact ih h
      | (cases h <;> simp)

/-- Confidence schedule of the C# probe: 80, 90 or 95 hundredths. -/
theorem csharpDetect_conf (cwd : Cwd) (r : DetectionResult)
    (h : csharpDetect cwd = .found r) :
    (r.confidence = 80 ∨ r.confidence = 90 ∨ r.confidence = 95)
    ∧ r.stack.confidence = some r.confidence := by
  unfold csharpDetect at h
  dsimp only at h
  repeat' split at h
  all_goals cases h <;> simp

/-- Confidence schedule of the Java scan: the base confidences carried by
the file list, or 95 hundredths on a boost. -/
theorem javaScan_conf (cwd : Cwd) (files : List (String × Nat)) (r : DetectionResult)
    (hf : ∀ fc ∈ files, fc.2 = 90 ∨ fc.2 = 85)
    (h : javaScan cwd files = .found r) :
    (r.confidence = 85 ∨ r.confidence = 90 ∨ r.confidence = 95)
    ∧ r.stack.confidence = some r.confidence := by
  induction files with
  | nil => simp [javaScan] at h
  | cons fc rest ih =>
    obtain ⟨f, bc⟩ := fc
    rw [javaScan] at h
    dsimp only at h
    repeat' split at h
    all_goals first
      | exact ih (fun x hx => hf x (List.mem_cons_of_mem _ hx)) h
      | (cases h
         refine ⟨?_, rfl⟩
         dsimp only
         rcases hf (f, bc) (List.mem_cons_self _ _) with h9 | h8 <;> omega)

/-- Confidence schedule of the PHP probe: 85 or 95 hundredths. -/
theorem phpDetect_conf (cwd : Cwd) (r : DetectionResult)
    (h : phpDetect cwd = .found r) :
    (r.confidence = 85 ∨ r.confidence = 95) ∧ r.stack.confidence = some r.confidence := by
  unfold phpDetect at h
  dsimp only at h
  repeat' split at h
  all_goals cases h <;> simp

/-- Every found result of a built-in probe records its scalar confidence in
the stack and stays within one hundred hundredths. -/
theorem builtin_conf (cwd : Cwd) (p : Probe) (hp : p ∈ builtinProbes)
    (r : DetectionResult) (h : p.run cwd = .found r) :
    r.stack.confidence = some r.confidence ∧ r.confidence ≤ 100 := by
  simp only [builtinProbes, List.mem_cons, List.not_mem_nil, or_false] at hp
  rcases hp with rfl | rfl | rfl | rfl | rfl
  · have hc := nodeDetect_conf cwd r h
    exact ⟨hc.2, by rcases hc.1 with h70 | h95 <;> omega⟩
  · have hc := pythonScan_conf cwd pythonFiles r h
    exact ⟨hc.2, by rcases hc.1 with h80 | h90 <;> omega⟩
  · have hc := csharpDetect_conf cwd r h
    exact ⟨hc.2, by rcases hc.1 with h80 | h90 | h95 <;> omega⟩
  · have hc := javaScan_conf cwd javaFiles r (by decide) h
    exact ⟨hc.2, by rcases hc.1 with h85 | h90 | h95 <;> omega⟩
  · have hc := phpDetect_conf cwd r h
    exact ⟨hc.2, by rcases hc.1 with h85 | h95 <;> omega⟩

/-- The sequential loop yields a stack whose confidence is recorded and at
most one hundred hundredths, provided every probe in the list has that
property on its found results. -/
theorem detectLoop_conf (cwd : Cwd) (ps : List Probe)
    (hps : ∀ p ∈ ps, ∀ r, p.run cwd = .found r →
      r.stack.confidence = some r.confidence ∧ r.confidence ≤ 100) :
    ∃ q, ((detectLoop cwd ps).1).confidence = some q ∧ q ≤ 100 := by
  induction ps with
  | nil => exact ⟨0, rfl, by omega⟩
  | cons p rest ih =>
    rw [detectLoop]
    cases hr : p.run cwd with
    | found r =>
      obtain ⟨h1, h2⟩ := hps p (List.mem_cons_self p rest) r hr
      exact ⟨r.confidence, h1, h2⟩
    | thrown =>
      dsimp only
      exact ih (fun q hq => hps q (List.mem_cons_of_mem p hq))
    | null =>
      dsimp only
      exact ih (fun q hq => hps q (List.mem_cons_of_mem p hq))

/-- When no probe in the list returns a found result, the loop falls back
to the unknown stack and has invoked every probe. -/
theorem detectLoop_nomatch (cwd : Cwd) (ps : List Probe)
    (h : ps.all (fun p => !(p.run cwd).isFound) = true) :
    detectLoop cwd ps = (unknownStack, ps.length) := by
  induction ps with
  | nil => rfl
  | cons p rest ih =>
    rw [List.all_cons, Bool.and_eq_true] at h
    rw [detectLoop]
    cases hr : p.run cwd with
    | found r =>
      rw [hr] at h
      simp [ProbeRes.isFound] at h
    | thrown =>
      dsimp only
      rw [ih h.2]
      rfl
    | null =>
      dsimp only
      rw [ih h.2]
      rfl

/-- When every probe of a first segment fails to match, the loop result on
the concatenation is the loop result on the second segment. -/
theorem detectLoop_skip (cwd : Cwd) (xs ys : List Probe)
    (h : xs.all (fun p => !(p.run cwd).isFound) = true) :
    (detectLoop cwd (xs ++ ys)).1 = (detectLoop cwd ys).1 := by
  induction xs with
  | nil => rfl
  | cons p rest ih =>
    rw [List.all_cons, Bool.and_eq_true] at h
    rw [List.cons_append, detectLoop]
    cases hr : p.run cwd with
    | found r =>
      rw [hr] at h
      simp [ProbeRes.isFound] at h
    | thrown =>
      dsimp only
      exact ih h.2
    | null =>
      dsimp only
      exact ih h.2

/-- The head of the stable descending sort of a non-empty result list is a
member attaining the maximal confidence. -/
theorem stableSortBy_confGe_head (l : List DetectionResult) (hl : l ≠ []) :
    ∃ r t, stableSortBy confGe l = r :: t ∧ r ∈ l
      ∧ ∀ y ∈ l, y.confidence ≤ r.confidence := by
  induction l with
  | nil => exact absurd rfl hl
  | cons x xs ih =>
    by_cases hxs : xs = []
    · subst hxs
      exact ⟨x, [], rfl, by simp, by simp⟩
    · obtain ⟨r, t, hsort, hmem, hmax⟩ := ih hxs
      rw [stableSortBy, hsort, insertBy]
      by_cases hle : confGe x r = true
      · rw [if_pos hle]
        refine ⟨x, r :: t, rfl, by simp, ?_⟩
        intro y hy
        rcases List.mem_cons.mp hy with rfl | hy2
        · exact le_refl _
        · exact le_trans (hmax y hy2) (by simpa [confGe] using hle)
      · rw [if_neg hle]
        refine ⟨r, insertBy confGe x t, rfl, List.mem_cons_of_mem _ hmem, ?_⟩
        intro y hy
        rcases List.mem_cons.mp hy with rfl | hy2
        · have hlt : ¬ r.confidence ≤ y.confidence := by simpa [confGe] using hle
          exact le_of_not_le hlt
        · exact hmax y hy2

/-- The fulfilled non-null probe results of a detector state at a working
directory, in probe order. -/
def successfulResults (d : DetectorState) (cwd : Cwd) : List DetectionResult :=
  (d.detectors.map (fun p => p.run cwd)).filterMap (fun r =>
    match r with
    | .found v => some v
    | _ => none)

/-! ## Working-directory fixtures -/

/-- An empty working directory: nothing exists, reads refuse, readdir
yields nothing, parses fail. -/
def cwdEmpty : Cwd := ⟨fun _ => false, fun _ => none, some [], fun _ => none, fun _ => none⟩

/-- A directory whose requirements file names django. -/
def cwdPy : Cwd :=
  ⟨fun s => s = "requirements.txt",
   fun s => if s = "requirements.txt" then some "django" else none,
   some [], fun _ => none, fun _ => none⟩

/-- A directory with a csproj naming the ASP.NET core package, without the
boost indicator. -/
def cwdCs : Cwd :=
  ⟨fun _ => false,
   fun s => if s = "app.csproj" then some "uses Microsoft.AspNetCore here" else none,
   some ["app.csproj"], fun _ => none, fun _ => none⟩

/-- A directory with a gradle build naming the spring boot starter, without
the web starter boost. -/
def cwdJava : Cwd :=
  ⟨fun s => s = "build.gradle",
   fun s => if s = "build.gradle" then some "spring-boot-starter" else none,
   some [], fun _ => none, fun _ => none⟩

/-- A directory whose composer manifest requires the laravel framework
without the boost indicator. -/
def cwdPhp : Cwd :=
  ⟨fun s => s = "composer.json",
   fun s => if s = "composer.json" then some "composer" else none,
   some [], fun _ => none,
   fun c => if c = "composer" then some ⟨[("laravel/framework", "10.0")], []⟩ else none⟩

/-- A custom probe of priority one hundred whose result always wins on
content. -/
def hiProbe : Probe := ⟨some 100, fun _ => .found ⟨⟨.ts, "nextjs", none, some 99⟩, 99⟩⟩

/-- A custom probe that fulfills with a moderate-confidence result. -/
def okProbe : Probe := ⟨some 1, fun _ => .found ⟨⟨.python, "flask", none, some 70⟩, 70⟩⟩

/-- A custom probe whose promise always rejects. -/
def rejProbe : Probe := ⟨some 1, fun _ => .thrown⟩

/-! ## Claim theorems for the framework detector -/

/-- Claim C4. For every directory state (the working-directory oracle is
arbitrary, covering empty directories, corrupted or missing manifests, and
the throwing readdir of the C# probe), detect on a freshly constructed
detector returns a stack — the loop is total because thrown probes are
caught and skipped — whose recorded confidence lies within the unit
interval (in hundredths), and when no probe returns a match the unknown
stack with confidence zero is returned. -/
theorem c4_detect_never_throws (cwd : Cwd) :
    (∃ q, ((detectI (mkDetector []) cwd).1).confidence = some q ∧ q ≤ 100)
    ∧ ((mkDetector []).detectors.all (fun p => !(p.run cwd).isFound) = true →
        (detectI (mkDetector []) cwd).1 = unknownStack) := by
  constructor
  · show ∃ q, ((detectLoop cwd builtinProbes).1).confidence = some q ∧ q ≤ 100
    exact detectLoop_conf cwd builtinProbes (fun p hp r hr => builtin_conf cwd p hp r hr)
  · intro hall
    have h2 : builtinProbes.all (fun p => !(p.run cwd).isFound) = true := hall
    show (detectLoop cwd builtinProbes).1 = unknownStack
    rw [detectLoop_nomatch cwd builtinProbes h2]

/-- Witness for claim C4 at the empty directory, where no probe matches. -/
theorem c4_detect_never_throws_witness :
    (∃ q, ((detectI (mkDetector []) cwdEmpty).1).confidence = some q ∧ q ≤ 100)
    ∧ (detectI (mkDetector []) cwdEmpty).1 = unknownStack :=
  ⟨(c4_detect_never_throws cwdEmpty).1, (c4_detect_never_throws cwdEmpty).2 (by decide)⟩

/-- Claim C5 counterexample. registerDetector only pushes: the probe list
after registering a priority-one-hundred probe is not re-sorted (the new
probe sits last behind the five priority-ten built-ins), and on the next
uncached detect the built-in Node probe is consulted first and wins even
though the registered probe has higher priority and a higher-confidence
result, refuting the claim that a later-registered higher-priority probe
is consulted first. -/
theorem c5_register_does_not_resort :
    ((registerDetector (mkDetector []) hiProbe).detectors.map Probe.priority)
      = [some 10, some 10, some 10, some 10, some 10, some 100]
    ∧ (detectI (registerDetector (mkDetector []) hiProbe) cwdExpress).1
        = ⟨.ts, "express", none, some 70⟩
    ∧ (detectI { detectors := [hiProbe], cache := none } cwdExpress).1
        = ⟨.ts, "nextjs", none, some 99⟩
    ∧ (registerDetector (mkDetector []) hiProbe).cache = none := by
  refine ⟨by decide, by decide, by decide, rfl⟩

/-- Claim C5 as amended: registerDetector appends the probe at the end of
the probe list without re-sorting and leaves the cache untouched (so an
existing cache entry stays valid); only the constructor sorts, and the
newly registered probe is consulted last on the next uncached detect —
when no earlier probe matches, the loop outcome is that of the new probe
alone. -/
theorem c5_register_appends (d : DetectorState) (p : Probe) (cwd : Cwd)
    (hnm : d.detectors.all (fun q => !(q.run cwd).isFound) = true) :
    (registerDetector d p).detectors = d.detectors ++ [p]
    ∧ (registerDetector d p).cache = d.cache
    ∧ (detectLoop cwd (registerDetector d p).detectors).1 = (detectLoop cwd [p]).1 := by
  exact ⟨rfl, rfl, detectLoop_skip cwd d.detectors [p] hnm⟩

/-- Witness for the amended claim C5 at a concrete registration. -/
theorem c5_register_appends_witness :
    (registerDetector (mkDetector []) hiProbe).detectors
      = (mkDetector []).detectors ++ [hiProbe]
    ∧ (registerDetector (mkDetector []) hiProbe).cache = (mkDetector []).cache
    ∧ (detectLoop cwdEmpty (registerDetector (mkDetector []) hiProbe).detectors).1
      = (detectLoop cwdEmpty [hiProbe]).1 :=
  c5_register_appends (mkDetector []) hiProbe cwdEmpty (by decide)

/-- Claim C6 counterexample. With a fulfilled non-null custom probe and a
rejecting custom probe, detectParallel returns the fulfilled stack but
emits zero rejection log lines, because the code returns before its
rejection-logging loop ever runs: the rejected probe is excluded from
consideration but not logged. -/
theorem c6_rejections_not_logged :
    (detectParallelI (mkDetector [okProbe, rejProbe]) cwdEmpty).1
      = ⟨.python, "flask", none, some 70⟩
    ∧ (detectParallelI (mkDetector [okProbe, rejProbe]) cwdEmpty).2.2 = 0
    ∧ ((mkDetector [okProbe, rejProbe]).detectors.map (fun p => p.run cwdEmpty)).contains
        ProbeRes.thrown = true := by
  refine ⟨by decide, by decide, by decide⟩

/-- Claim C6 as amended: when at least one probe fulfills with a non-null
result, detectParallel returns the stack of a fulfilled result of maximal
confidence (the first such in probe order, by stability) and logs nothing;
when no probe fulfills with a non-null result it falls back to the unknown
stack and logs one line per rejected probe. -/
theorem c6_highest_confidence_wins (d : DetectorState) (cwd : Cwd)
    (hc : d.cache = none) :
    (successfulResults d cwd ≠ [] →
      ∃ r ∈ successfulResults d cwd,
        (detectParallelI d cwd).1 = r.stack
        ∧ (∀ y ∈ successfulResults d cwd, y.confidence ≤ r.confidence)
        ∧ (detectParallelI d cwd).2.2 = 0)
    ∧ (successfulResults d cwd = [] →
        (detectParallelI d cwd).1 = unknownStack
        ∧ (detectParallelI d cwd).2.2
          = ((d.detectors.map (fun p => p.run cwd)).filter
              (fun r => r = ProbeRes.thrown)).length) := by
  obtain ⟨dets, c⟩ := d
  dsimp only at hc
  subst hc
  constructor
  · intro hne
    obtain ⟨r, t, hsort, hmem, hmax⟩ := stableSortBy_confGe_head _ hne
    unfold successfulResults at hsort
    dsimp only at hsort
    refine ⟨r, hmem, ?_, hmax, ?_⟩
    · unfold detectParallelI
      dsimp only
      rw [hsort]
    · unfold detectParallelI
      dsimp only
      rw [hsort]
  · intro hemp
    unfold successfulResults at hemp
    dsimp only at hemp
    constructor
    · unfold detectParallelI
      dsimp only
      rw [hemp]
      rfl
    · unfold detectParallelI
      dsimp only
      rw [hemp]
      rfl

/-- Witness for the amended claim C6 with one fulfilled and one rejected
probe. -/
theorem c6_highest_confidence_wins_witness :
    ∃ r ∈ successfulResults (mkDetector [okProbe, rejProbe]) cwdEmpty,
      (detectParallelI (mkDetector [okProbe, rejProbe]) cwdEmpty).1 = r.stack
      ∧ (∀ y ∈ successfulResults (mkDetector [okProbe, rejProbe]) cwdEmpty,
          y.confidence ≤ r.confidence)
      ∧ (detectParallelI (mkDetector [okProbe, rejProbe]) cwdEmpty).2.2 = 0 :=
  (c6_highest_confidence_wins (mkDetector [okProbe, rejProbe]) cwdEmpty rfl).1 (by decide)

/-- Claim C7. On a state with an empty cache, detect computes a result and
fills the cache; a second detect returns exactly the cached value and
invokes zero probes; clearCache restores the original state, after which
detect repeats the original fresh computation from disk. -/
theorem c7_cache_identity (d : DetectorState) (cwd : Cwd) (h : d.cache = none) :
    detectI (detectI d cwd).2.1 cwd = ((detectI d cwd).1, (detectI d cwd).2.1, 0)
    ∧ clearCache (detectI d cwd).2.1 = d
    ∧ detectI (clearCache (detectI d cwd).2.1) cwd = detectI d cwd := by
  obtain ⟨dets, c⟩ := d
  dsimp only at h
  subst h
  exact ⟨rfl, rfl, rfl⟩

/-- Witness for claim C7 on a fresh detector over a Node project. -/
theorem c7_cache_identity_witness :
    detectI (detectI (mkDetector []) cwdExpress).2.1 cwdExpress
      = ((detectI (mkDetector []) cwdExpress).1, (detectI (mkDetector []) cwdExpress).2.1, 0)
    ∧ clearCache (detectI (mkDetector []) cwdExpress).2.1 = mkDetector []
    ∧ detectI (clearCache (detectI (mkDetector []) cwdExpress).2.1) cwdExpress
      = detectI (mkDetector []) cwdExpress :=
  c7_cache_identity (mkDetector []) cwdExpress rfl

/-- Claim C8. Every found result of the five built-in probes carries a
confidence from the closed discrete schedule, in hundredths: Node seventy
or ninety-five; Python eighty or ninety; C# eighty, ninety or ninety-five;
Java eighty-five, ninety or ninety-five; PHP eighty-five or ninety-five —
so every built-in result lies in the table set, never starts above
ninety-five, never reaches one hundred, and records its scalar confidence
in the stack. -/
theorem c8_confidence_schedule (cwd : Cwd) (r : DetectionResult) :
    (nodeDetect cwd = .found r → (r.confidence = 70 ∨ r.confidence = 95))
    ∧ (pythonDetect cwd = .found r → (r.confidence = 80 ∨ r.confidence = 90))
    ∧ (csharpDetect cwd = .found r →
        (r.confidence = 80 ∨ r.confidence = 90 ∨ r.confidence = 95))
    ∧ (javaDetect cwd = .found r →
        (r.confidence = 85 ∨ r.confidence = 90 ∨ r.confidence = 95))
    ∧ (phpDetect cwd = .found r → (r.confidence = 85 ∨ r.confidence = 95))
    ∧ (∀ p ∈ builtinProbes, p.run cwd = .found r →
        r.confidence ∈ ([70, 80, 85, 90, 95] : List Nat)
        ∧ r.confidence ≤ 95 ∧ r.confidence < 100
        ∧ r.stack.confidence = some r.confidence) := by
  refine ⟨fun h => (nodeDetect_conf cwd r h).1,
          fun h => (pythonScan_conf cwd pythonFiles r h).1,
          fun h => (csharpDetect_conf cwd r h).1,
          fun h => (javaScan_conf cwd javaFiles r (by decide) h).1,
          fun h => (phpDetect_conf cwd r h).1, ?_⟩
  intro p hp h
  simp only [builtinProbes, List.mem_cons, List.not_mem_nil, or_false] at hp
  rcases hp with rfl | rfl | rfl | rfl | rfl
  · have hc := nodeDetect_conf cwd r h
    exact ⟨by rcases hc.1 with h1 | h1 <;> rw [h1] <;> decide,
           by rcases hc.1 with h1 | h1 <;> omega,
           by rcases hc.1 with h1 | h1 <;> omega, hc.2⟩
  · have hc := pythonScan_conf cwd pythonFiles r h
    exact ⟨by rcases hc.1 with h1 | h1 <;> rw [h1] <;> decide,
           by rcases hc.1 with h1 | h1 <;> omega,
           by rcases hc.1 with h1 | h1 <;> omega, hc.2⟩
  · have hc := csharpDetect_conf cwd r h
    exact ⟨by rcases hc.1 with h1 | h1 | h1 <;> rw [h1] <;> decide,
           by rcases hc.1 with h1 | h1 | h1 <;> omega,
           by rcases hc.1 with h1 | h1 | h1 <;> omega, hc.2⟩
  · have hc := javaScan_conf cwd javaFiles r (by decide) h
    exact ⟨by rcases hc.1 with h1 | h1 | h1 <;> rw [h1] <;> decide,
           by rcases hc.1 with h1 | h1 | h1 <;> omega,
           by rcases hc.1 with h1 | h1 | h1 <;> omega, hc.2⟩
  · have hc := phpDetect_conf cwd r h
    exact ⟨by rcases hc.1 with h1 | h1 <;> rw [h1] <;> decide,
           by rcases hc.1 with h1 | h1 <;> omega,
           by rcases hc.1 with h1 | h1 <;> omega, hc.2⟩

/-- Result fixtures for the schedule witness. -/
def rNest : DetectionResult := ⟨⟨.ts, "nestjs", none, some 95⟩, 95⟩

def rPy : DetectionResult := ⟨⟨.python, "django", none, some 80⟩, 80⟩

def rCs : DetectionResult := ⟨⟨.csharp, "aspnet", none, some 90⟩, 90⟩

def rJava : DetectionResult := ⟨⟨.java, "spring", none, some 85⟩, 85⟩

def rPhp : DetectionResult := ⟨⟨.php, "laravel", none, some 85⟩, 85⟩

/-- Witness for claim C8: each ecosystem probe produces a concrete result
on a concrete directory, and the schedule facts follow by applying the
claim theorem there. -/
theorem c8_confidence_schedule_witness :
    (nodeDetect cwdNest = .found rNest ∧ (rNest.confidence = 70 ∨ rNest.confidence = 95))
    ∧ (pythonDetect cwdPy = .found rPy ∧ (rPy.confidence = 80 ∨ rPy.confidence = 90))
    ∧ (csharpDetect cwdCs = .found rCs
        ∧ (rCs.confidence = 80 ∨ rCs.confidence = 90 ∨ rCs.confidence = 95))
    ∧ (javaDetect cwdJava = .found rJava
        ∧ (rJava.confidence = 85 ∨ rJava.confidence = 90 ∨ rJava.confidence = 95))
    ∧ (phpDetect cwdPhp = .found rPhp ∧ (rPhp.confidence = 85 ∨ rPhp.confidence = 95))
    ∧ (rNest.confidence ∈ ([70, 80, 85, 90, 95] : List Nat) ∧ rNest.confidence ≤ 95
        ∧ rNest.confidence < 100 ∧ rNest.stack.confidence = some rNest.confidence) :=
  ⟨⟨by decide, (c8_confidence_schedule cwdNest rNest).1 (by decide)⟩,
   ⟨by decide, (c8_confidence_schedule cwdPy rPy).2.1 (by decide)⟩,
   ⟨by decide, (c8_confidence_schedule cwdCs rCs).2.2.1 (by decide)⟩,
   ⟨by decide, (c8_confidence_schedule cwdJava rJava).2.2.2.1 (by decide)⟩,
   ⟨by decide, (c8_confidence_schedule cwdPhp rPhp).2.2.2.2.1 (by decide)⟩,
   (c8_confidence_schedule cwdNest rNest).2.2.2.2.2 ⟨some 10, nodeDetect⟩
     (List.mem_cons_self _ _) (by decide)⟩

/-- Witness for claim C10 at a benign framework, discharging the schema
hypothesis. -/
theorem c10_raw_prefix_check_witness :
    ((generate fsTriv "/r/templates" "a.b" "ts" "nestjs" "/out" none).2
        = some (.pathTraversal (pathJoin ["/r/templates", "ts", "nestjs", "a.b"]))
      ↔ strStartsWith (resolveAbs (pathJoin ["/r/templates", "ts", "nestjs", "a.b"]))
          "/r/templates" = false)
    ∧ validatePathOk "/r/templates"
        (pathJoin ["/r/templates", "ts", "../../templatesX", "a.b"]) = true
    ∧ resolveAbs (pathJoin ["/r/templates", "ts", "../../templatesX", "a.b"])
        = "/r/templatesX/a.b"
    ∧ strStartsWith "/r/templatesX/a.b" "/r/templates/" = false
    ∧ ("/r/templatesX/a.b" = "/r/templates") = False
    ∧ generate fsTriv "/r/templates" "a.b" "ts" "../../templatesX" "/out" none
      = ([], some (.templateNotFound "/r/templatesX/a.b")) :=
  c10_raw_prefix_check fsTriv "/r/templates" "a.b" "ts" "nestjs" "/out" none (by decide)

end Skel
